import Mathlib

/-!
Verification of the django_todo backend core: data model, per-user scoping,
task/todo serialization, nested-todo reconciliation, cascade delete and login.

The embedding follows the source files under `backend/app`:
`models/task_model.py`, `models/todo_model.py`, `views/task_view.py`,
`views/todo_view.py`, `views/auth_view.py`, `serializers/task_serializer.py`,
`serializers/todo_serializer.py`.

Modelling conventions:
- Timestamps are natural numbers; the framework-managed `auto_now` /
  `auto_now_add` bumps are not modelled (no claim depends on them), so
  created/updated stamps of freshly created rows are set to 0.
- The relational store is a pair of lists of rows.  `obj.todos` (the set of
  Todos associated with a Task) is the set of Todos whose `task` foreign key
  equals the Task's id, and `instance.todos.add(todo)` sets that foreign key,
  matching the `Todo.task` ForeignKey (`related_name="todos"`) of
  `todo_model.py` and the behaviour exercised by the repository's tests.
- `Todo.user` and `Todo.task` are nullable foreign keys (`null=True` in
  `todo_model.py`), hence `Option Nat`; `Task.user` is required, hence `Nat`.
- `StringRelatedField` rendering of the owner is kept as the numeric owner id
  (no claim inspects the rendered owner).
-/

namespace App

/-- A user record (`django.contrib.auth.models.User`): id, username and the
`is_superuser` flag (the "elevated identity" of the spec). -/
structure UserT where
  uid : Nat
  username : String
  is_superuser : Bool
deriving Repr, DecidableEq

/-- A Task row (`task_model.py`): title, optional description, system
timestamps, required owner. -/
structure Task where
  id : Nat
  title : String
  description : Option String
  created_at : Nat
  updated_at : Nat
  user : Nat
deriving Repr, DecidableEq

/-- A Todo row (`todo_model.py`): title, optional description, completion
flag, optional due date, system timestamps, nullable owner, nullable task
foreign key, and a tag list (default `["general"]`). -/
structure Todo where
  id : Nat
  title : String
  description : Option String
  completed : Bool
  due_date : Option Nat
  created_at : Nat
  updated_at : Nat
  user : Option Nat
  task : Option Nat
  tags : List String
deriving Repr, DecidableEq

/-- The relational store: all Task rows and all Todo rows. -/
structure Store where
  tasks : List Task
  todos : List Todo
deriving Repr, DecidableEq

/-- `order_by('-created_at')` ordering on tasks: newest first. -/
def Task.createdDescRel (a b : Task) : Prop := b.created_at ≤ a.created_at

instance : DecidableRel Task.createdDescRel := fun _ _ => Nat.decLe _ _

instance : IsTotal Task Task.createdDescRel :=
  ⟨fun a b => le_total b.created_at a.created_at⟩

instance : IsTrans Task Task.createdDescRel :=
  ⟨fun _ _ _ h1 h2 => le_trans h2 h1⟩

/-- `order_by('-created_at')` ordering on todos: newest first. -/
def Todo.createdDescRel (a b : Todo) : Prop := b.created_at ≤ a.created_at

instance : DecidableRel Todo.createdDescRel := fun _ _ => Nat.decLe _ _

instance : IsTotal Todo Todo.createdDescRel :=
  ⟨fun a b => le_total b.created_at a.created_at⟩

instance : IsTrans Todo Todo.createdDescRel :=
  ⟨fun _ _ _ h1 h2 => le_trans h2 h1⟩

/-- The reverse foreign-key accessor `obj.todos`: every Todo whose `task`
reference equals this Task's id. -/
def Task.todosOf (obj : Task) (s : Store) : List Todo :=
  s.todos.filter (fun td => td.task == some obj.id)

/-- Lookup of a Task row by primary key (`Task.objects.get(id=...)`-style
resolution used to ask whether an id still resolves). -/
def Store.resolveTask (s : Store) (pk : Nat) : Option Task :=
  s.tasks.find? (fun t => t.id == pk)

/-- Lookup of a Todo row by primary key. -/
def Store.resolveTodo (s : Store) (pk : Nat) : Option Todo :=
  s.todos.find? (fun td => td.id == pk)

/-- `todo.save()` on an existing row: the row with this primary key is
replaced by the new field values. -/
def Store.saveTodo (s : Store) (td : Todo) : Store :=
  { s with todos := s.todos.map (fun x => if x.id == td.id then td else x) }

/-- `task.save()` on an existing row. -/
def Store.saveTask (s : Store) (t : Task) : Store :=
  { s with tasks := s.tasks.map (fun x => if x.id == t.id then t else x) }

/-- A fresh primary key for a created Todo row (strictly above every id in
the store, as a relational autoincrement column provides). -/
def Store.freshTodoId (s : Store) : Nat :=
  (s.todos.map Todo.id).foldr max 0 + 1

namespace TaskViewSet

/-- `TaskViewSet.get_queryset` (`task_view.py`): all tasks for a superuser,
otherwise only the requester's tasks; ordered by `created_at` descending. -/
def get_queryset (requester : UserT) (s : Store) : List Task :=
  if requester.is_superuser then
    List.insertionSort Task.createdDescRel s.tasks
  else
    List.insertionSort Task.createdDescRel
      (s.tasks.filter (fun t => t.user == requester.uid))

end TaskViewSet

namespace TodoViewSet

/-- `TodoViewSet.get_queryset` (`todo_view.py`): all todos for a superuser,
otherwise only the requester's todos; ordered by `created_at` descending. -/
def get_queryset (requester : UserT) (s : Store) : List Todo :=
  if requester.is_superuser then
    List.insertionSort Todo.createdDescRel s.todos
  else
    List.insertionSort Todo.createdDescRel
      (s.todos.filter (fun td => td.user == some requester.uid))

end TodoViewSet

/-- Outcome of a detail fetch.  The framework resolves `GET /{id}` by looking
the id up inside `get_queryset`; a miss is reported as HTTP 404 (`notFound`),
and a permission denial would be HTTP 403 (`forbidden`). -/
inductive FetchResult (α : Type) where
  | ok (value : α)
  | notFound
  | forbidden
deriving Repr, DecidableEq

/-- Detail fetch of a Task: `get_object` looks the primary key up in the
scoped queryset and raises 404 when it is absent. -/
def TaskViewSet.retrieve (requester : UserT) (pk : Nat) (s : Store) :
    FetchResult Task :=
  match (TaskViewSet.get_queryset requester s).find? (fun t => t.id == pk) with
  | some t => .ok t
  | none => .notFound

/-- Detail fetch of a Todo, same resolution as for tasks. -/
def TodoViewSet.retrieve (requester : UserT) (pk : Nat) (s : Store) :
    FetchResult Todo :=
  match (TodoViewSet.get_queryset requester s).find? (fun td => td.id == pk) with
  | some td => .ok td
  | none => .notFound

/-- The reduced nested-Todo representation produced by `TaskTodoSerializer`
(`task_serializer.py`): exactly the fields id, title, description, completed,
created_at, updated_at, tags, due_date — no owner, no task. -/
structure TaskTodoRepr where
  id : Nat
  title : String
  description : Option String
  completed : Bool
  created_at : Nat
  updated_at : Nat
  tags : List String
  due_date : Option Nat
deriving Repr, DecidableEq

/-- Serialization of one Todo through `TaskTodoSerializer`. -/
def TaskTodoSerializer.represent (td : Todo) : TaskTodoRepr :=
  { id := td.id, title := td.title, description := td.description,
    completed := td.completed, created_at := td.created_at,
    updated_at := td.updated_at, tags := td.tags, due_date := td.due_date }

namespace TaskSerializer

/-- `TaskSerializer.get_todos`: for an authenticated requester, the Todos of
this Task owned by the requester, ordered by `created_at` descending and
rendered through `TaskTodoSerializer`; `[]` otherwise.  The requester is
`none` when the request is absent from context or the user unauthenticated. -/
def get_todos (requester : Option UserT) (obj : Task) (s : Store) :
    List TaskTodoRepr :=
  match requester with
  | some u =>
      (List.insertionSort Todo.createdDescRel
        ((obj.todosOf s).filter (fun td => td.user == some u.uid))).map
        TaskTodoSerializer.represent
  | none => []

/-- `TaskSerializer.get_todos_count`: the count of this Task's Todos owned by
the requester; 0 when unauthenticated in context. -/
def get_todos_count (requester : Option UserT) (obj : Task) (s : Store) : Nat :=
  match requester with
  | some u => ((obj.todosOf s).filter (fun td => td.user == some u.uid)).length
  | none => 0

end TaskSerializer

/-- The serialized Task produced by `TaskSerializer`: the model fields plus
the `todos` method field (`none` when the key is popped from the payload) and
`todos_count`.  `user` is the owner reference rendered read-only. -/
structure TaskRepr where
  id : Nat
  title : String
  description : Option String
  created_at : Nat
  updated_at : Nat
  user : Nat
  todos : Option (List TaskTodoRepr)
  todos_count : Nat
deriving Repr, DecidableEq

/-- `TaskSerializer.to_representation`: build the full field dictionary (the
method fields `todos` and `todos_count` included), then pop the `todos` key
whenever the request's `include_todos` query parameter is not `'1'`.
`include_todos_param` is the raw query-parameter value (`none` when absent). -/
def TaskSerializer.to_representation (requester : Option UserT)
    (include_todos_param : Option String) (obj : Task) (s : Store) : TaskRepr :=
  let data : TaskRepr :=
    { id := obj.id, title := obj.title, description := obj.description,
      created_at := obj.created_at, updated_at := obj.updated_at,
      user := obj.user,
      todos := some (TaskSerializer.get_todos requester obj s),
      todos_count := TaskSerializer.get_todos_count requester obj s }
  if include_todos_param ≠ some "1" then { data with todos := none } else data

/-- One element of the raw `todos` list handed to `TaskSerializer.update`
(the repository's unit tests inject these dictionaries directly, since the
`todos` field of the serializer is itself read-only).  A field set to `none`
is absent from the dictionary; for nullable columns the inner `Option` is the
stored value. -/
structure TodoDescriptor where
  id : Option Nat := none
  title : Option String := none
  description : Option (Option String) := none
  completed : Option Bool := none
  due_date : Option (Option Nat) := none
  tags : Option (List String) := none
  user : Option (Option Nat) := none
  task : Option (Option Nat) := none
deriving Repr, DecidableEq

/-- The `setattr` loop of `TaskSerializer.update`: every field present in the
descriptor except `id` is written onto the todo — this includes `user` and
`task` when the dictionary carries them. -/
def TodoDescriptor.applyTo (d : TodoDescriptor) (td : Todo) : Todo :=
  { td with
    title := d.title.getD td.title,
    description := d.description.getD td.description,
    completed := d.completed.getD td.completed,
    due_date := d.due_date.getD td.due_date,
    tags := d.tags.getD td.tags,
    user := d.user.getD td.user,
    task := d.task.getD td.task }

/-- `Todo.objects.create(**{k: v for k, v in todo_data.items() if k != 'id'})`:
a fresh row whose fields come from the dictionary when present and from the
model defaults otherwise — in particular `user` and `task` stay whatever the
dictionary carries, `None` when absent. -/
def TaskSerializer.objectsCreateTodo (d : TodoDescriptor) (s : Store) : Store :=
  let newTd : Todo :=
    { id := s.freshTodoId,
      title := d.title.getD "",
      description := d.description.getD none,
      completed := d.completed.getD false,
      due_date := d.due_date.getD none,
      created_at := 0, updated_at := 0,
      user := d.user.getD none,
      task := d.task.getD none,
      tags := d.tags.getD ["general"] }
  { s with todos := s.todos ++ [newTd] }

/-- The body of the `for todo_data in todos_data` loop of
`TaskSerializer.update`.  A dictionary with a truthy `id` looks up a Todo by
that id AND `user == request.user`; on a hit every field but `id` is applied
and saved, and if the todo is not among `instance.todos` it is added (its
`task` foreign key set to the Task); on a miss the element is skipped
silently.  A dictionary without a truthy `id` reaches the create branch,
which always raises: `Todo.objects.create` inserts the row, then
`todo.user.add(self.context['request'].user)` is an `AttributeError` —
`Todo.user` is a ForeignKey (`todo_model.py`), its value a `User` instance or
`None`, neither of which has `.add` — so the exception escapes before
`instance.todos.add(todo)` runs.  The `Except` error value carries the
database state already persisted when the exception escapes. -/
def TaskSerializer.processTodoDescriptor (requester : UserT) (inst : Task)
    (s : Store) (d : TodoDescriptor) : Except Store Store :=
  match d.id with
  | some i =>
      if i ≠ 0 then
        match s.todos.find?
            (fun td => td.id == i && td.user == some requester.uid) with
        | some td =>
            let td1 := d.applyTo td
            let s1 := s.saveTodo td1
            if td1.task ≠ some inst.id then
              .ok (s1.saveTodo { td1 with task := some inst.id })
            else .ok s1
        | none => .ok s
      else .error (TaskSerializer.objectsCreateTodo d s)
  | none => .error (TaskSerializer.objectsCreateTodo d s)

/-- The `for todo_data in todos_data` loop itself: dictionaries are processed
in input order, each mutation persisted on its own (no cross-record
transaction), and an exception escaping one iteration aborts the rest of the
loop. -/
def TaskSerializer.processTodosData (requester : UserT) (inst : Task) :
    List TodoDescriptor → Store → Except Store Store
  | [], s => .ok s
  | d :: ds, s =>
      match TaskSerializer.processTodoDescriptor requester inst s d with
      | .ok s1 => TaskSerializer.processTodosData requester inst ds s1
      | .error s1 => .error s1

/-- The database state of an update attempt: the resulting store when the
update returned normally, the already-persisted store when it escaped with an
exception. -/
def dbState : Except Store Store → Store
  | .ok s => s
  | .error s => s

/-- `TaskSerializer.update` (`task_serializer.py`): pop `todos` from the
validated data (absent → `[]`), write `title`/`description` onto the Task
when present and save it, then run the todo loop.  Returns the mutated Task
and the loop's outcome — `Except.error` when an `AttributeError` escaped a
create-branch iteration, carrying the state persisted up to that point. -/
def TaskSerializer.update (requester : UserT) (inst : Task)
    (title? : Option String) (description? : Option (Option String))
    (todos_data : List TodoDescriptor) (s : Store) :
    Task × Except Store Store :=
  let inst1 : Task :=
    { inst with
      title := title?.getD inst.title,
      description := description?.getD inst.description }
  let s1 := s.saveTask inst1
  (inst1, TaskSerializer.processTodosData requester inst1 todos_data s1)

/-- `TaskViewSet.perform_destroy` (`task_view.py`): a superuser deletes every
Todo of the Task, a plain requester deletes the Todos of the Task they own;
then `instance.delete()` removes the Task row, and the `on_delete=CASCADE` of
the `Todo.task` foreign key (`todo_model.py`) removes every remaining Todo
whose `task` reference is this Task. -/
def TaskViewSet.perform_destroy (requester : UserT) (inst : Task)
    (s : Store) : Store :=
  let s1 : Store :=
    if requester.is_superuser then
      { s with todos := s.todos.filter (fun td => !(td.task == some inst.id)) }
    else
      { s with
        todos := s.todos.filter
          (fun td => !(td.task == some inst.id && td.user == some requester.uid)) }
  { tasks := s1.tasks.filter (fun t => !(t.id == inst.id)),
    todos := s1.todos.filter (fun td => !(td.task == some inst.id)) }

/-- A client Todo payload as it stands after `TodoSerializer` field
validation (`todo_serializer.py`): writable fields are optional; the `user`
field records a client-supplied owner attempt, which validation discards
because `user` is in `read_only_fields`. -/
structure TodoPayload where
  title : Option String := none
  description : Option (Option String) := none
  completed : Option Bool := none
  due_date : Option (Option Nat) := none
  task : Option (Option Nat) := none
  tags : Option (List String) := none
  user : Option Nat := none
deriving Repr, DecidableEq

/-- `TodoViewSet.perform_create` + `TodoSerializer.create`: the validated
writable fields populate the new row (the read-only `user` of the payload is
dropped by validation), and `validated_data['user'] = request.user` /
`serializer.save(user=request.user)` set the owner to the requester.  Tags
absent from the payload default to `["general"]` (`get_default_tags`). -/
def TodoSerializer.create (requester : UserT) (p : TodoPayload) (s : Store) :
    Todo × Store :=
  let newTd : Todo :=
    { id := s.freshTodoId,
      title := p.title.getD "",
      description := p.description.getD none,
      completed := p.completed.getD false,
      due_date := p.due_date.getD none,
      created_at := 0, updated_at := 0,
      user := some requester.uid,
      task := p.task.getD none,
      tags := p.tags.getD ["general"] }
  (newTd, { s with todos := s.todos ++ [newTd] })

/-- A Todo update through the API: the framework's default `ModelSerializer`
update writes every validated writable field onto the instance; `user` is
read-only and therefore never among them. -/
def TodoSerializer.updateInstance (p : TodoPayload) (td : Todo) : Todo :=
  { td with
    title := p.title.getD td.title,
    description := p.description.getD td.description,
    completed := p.completed.getD td.completed,
    due_date := p.due_date.getD td.due_date,
    task := p.task.getD td.task,
    tags := p.tags.getD td.tags }

/-- A client Task payload after `TaskSerializer` field validation: `title`
and `description` are the writable fields; `user` records a client-supplied
owner attempt (read-only, dropped), and the `todos` method field is likewise
read-only, so no todo dictionaries survive validation. -/
structure TaskPayload where
  title : Option String := none
  description : Option (Option String) := none
  user : Option Nat := none
deriving Repr, DecidableEq

/-- `TaskViewSet.perform_create` + `TaskSerializer.create`:
`validated_data['user'] = request.user` (and `serializer.save(user=...)`)
make the requester the owner regardless of the payload. -/
def TaskSerializer.create (requester : UserT) (p : TaskPayload)
    (freshId : Nat) (s : Store) : Task × Store :=
  let newT : Task :=
    { id := freshId,
      title := p.title.getD "",
      description := p.description.getD none,
      created_at := 0, updated_at := 0,
      user := requester.uid }
  (newT, { s with tasks := s.tasks ++ [newT] })

/-- A Task update through the API (`PUT`/`PATCH /tasks/{id}`): the serializer
is saved with the validated data, in which the read-only `todos` method field
never appears — so `TaskSerializer.update` runs with an empty todo list. -/
def TaskViewSet.updateThroughApi (requester : UserT) (inst : Task)
    (p : TaskPayload) (s : Store) : Task × Except Store Store :=
  TaskSerializer.update requester inst p.title p.description [] s

/-- Pythonic truthiness of `request.data.get(...)` for a string field:
`None` and the empty string are falsy. -/
def truthyStr : Option String → Bool
  | none => false
  | some v => !(v == "")

/-- The response of `LoginView.post` (`auth_view.py`). -/
inductive LoginResponse where
  | success (user_id : Nat) (username : String)
  | invalidCredentials
  | missingFields
deriving Repr, DecidableEq

/-- HTTP status of each login response: 200, 401 `{'error': 'Invalid
credentials'}`, 400 `{'error': 'Username and password required'}`. -/
def LoginResponse.status : LoginResponse → Nat
  | .success _ _ => 200
  | .invalidCredentials => 401
  | .missingFields => 400

/-- `LoginView.post`: `if username and password:` guards the call to
`authenticate`; truthy credentials are verified (success returns the token
holder's id and name — token issuance itself is the external collaborator),
non-truthy input short-circuits to the 400 response. -/
def LoginView.post (authenticate : String → String → Option UserT)
    (username password : Option String) : LoginResponse :=
  if truthyStr username && truthyStr password then
    match authenticate (username.getD "") (password.getD "") with
    | some u => .success u.uid u.username
    | none => .invalidCredentials
  else .missingFields

/-- Modelled from the spec (for comparison with the code, claim C7): the
claimed `todos_count` — "the count of Todos under this Task visible to the
requester, i.e. owned by requester, or all if elevated; 0 if unauthenticated". -/
def claimedTodosCount (requester : Option UserT) (obj : Task) (s : Store) : Nat :=
  match requester with
  | some u =>
      if u.is_superuser then (obj.todosOf s).length
      else ((obj.todosOf s).filter (fun td => td.user == some u.uid)).length
  | none => 0

/-- Modelled from the spec (for comparison with the code, claim C2): the
claimed effect of reconciling a found descriptor — "apply every field present
in the descriptor except `id`, `owner`, and `task` directly onto the existing
Todo; if the Todo's current `task` reference differs from this Task's id,
reassign it to this Task". -/
def claimedReconcileFound (inst : Task) (d : TodoDescriptor) (td : Todo) : Todo :=
  let td1 : Todo :=
    { td with
      title := d.title.getD td.title,
      description := d.description.getD td.description,
      completed := d.completed.getD td.completed,
      due_date := d.due_date.getD td.due_date,
      tags := d.tags.getD td.tags }
  if td1.task ≠ some inst.id then { td1 with task := some inst.id } else td1

/-! ## Helper lemmas -/

lemma mem_task_get_queryset (u : UserT) (s : Store) (t : Task) :
    t ∈ TaskViewSet.get_queryset u s ↔
      t ∈ s.tasks ∧ (u.is_superuser = true ∨ t.user = u.uid) := by
  unfold TaskViewSet.get_queryset
  by_cases h : u.is_superuser = true
  · simp [h, (List.perm_insertionSort _ _).mem_iff]
  · simp [h, (List.perm_insertionSort _ _).mem_iff, List.mem_filter]

lemma mem_todo_get_queryset (u : UserT) (s : Store) (td : Todo) :
    td ∈ TodoViewSet.get_queryset u s ↔
      td ∈ s.todos ∧ (u.is_superuser = true ∨ td.user = some u.uid) := by
  unfold TodoViewSet.get_queryset
  by_cases h : u.is_superuser = true
  · simp [h, (List.perm_insertionSort _ _).mem_iff]
  · simp [h, (List.perm_insertionSort _ _).mem_iff, List.mem_filter]

lemma sorted_task_get_queryset (u : UserT) (s : Store) :
    List.Sorted Task.createdDescRel (TaskViewSet.get_queryset u s) := by
  unfold TaskViewSet.get_queryset
  by_cases h : u.is_superuser = true <;>
    simp [h, List.sorted_insertionSort]

lemma sorted_todo_get_queryset (u : UserT) (s : Store) :
    List.Sorted Todo.createdDescRel (TodoViewSet.get_queryset u s) := by
  unfold TodoViewSet.get_queryset
  by_cases h : u.is_superuser = true <;>
    simp [h, List.sorted_insertionSort]

/-! ## Sample data used by counterexamples and witnesses -/

/-- A plain (non-elevated) user. -/
def sampleUser1 : UserT := { uid := 1, username := "alice", is_superuser := false }

/-- A second plain user. -/
def sampleUser2 : UserT := { uid := 2, username := "bob", is_superuser := false }

/-- An elevated user. -/
def sampleAdmin : UserT := { uid := 9, username := "admin", is_superuser := true }

/-- A Task owned by `sampleUser1`. -/
def sampleTask1 : Task :=
  { id := 1, title := "Trip", description := none,
    created_at := 5, updated_at := 5, user := 1 }

/-- A Todo under `sampleTask1` owned by `sampleUser1`. -/
def sampleTodoA : Todo :=
  { id := 1, title := "Pack", description := none, completed := false,
    due_date := none, created_at := 6, updated_at := 6,
    user := some 1, task := some 1, tags := ["general"] }

/-- A Todo under `sampleTask1` owned by `sampleUser2`. -/
def sampleTodoB : Todo :=
  { id := 2, title := "TheirTodo", description := none, completed := false,
    due_date := none, created_at := 7, updated_at := 7,
    user := some 2, task := some 1, tags := ["general"] }

/-- A store holding `sampleTask1` and the two todos. -/
def sampleStore : Store :=
  { tasks := [sampleTask1], todos := [sampleTodoA, sampleTodoB] }

lemma length_filter_filter_countP {α : Type} (l : List α) (p q : α → Bool) :
    ((l.filter q).filter p).length = l.countP (fun a => q a && p a) := by
  rw [List.countP_eq_length_filter, List.filter_filter]
  exact congrArg List.length (List.filter_congr (fun a _ => Bool.and_comm (p a) (q a)))

lemma saveTodo_saveTodo_same_id (s : Store) (a b : Todo) (hab : a.id = b.id) :
    (s.saveTodo a).saveTodo b = s.saveTodo b := by
  unfold Store.saveTodo
  simp only [List.map_map, Store.mk.injEq, true_and]
  apply List.map_congr_left
  intro x _
  by_cases hx : x.id = a.id
  · simp [Function.comp, hx, hab]
  · simp [Function.comp, hx]

lemma mem_saveTodo_of_ne (s : Store) (t2 td : Todo) (hmem : td ∈ s.todos)
    (hne : td.id ≠ t2.id) : td ∈ (s.saveTodo t2).todos := by
  unfold Store.saveTodo
  have h : (fun x : Todo => if x.id == t2.id then t2 else x) td = td := by
    simp [hne]
  exact h ▸ List.mem_map_of_mem _ hmem

lemma processTodoDescriptor_skip (requester : UserT) (inst : Task) (s : Store)
    (d : TodoDescriptor) (i : Nat) (hid : d.id = some i) (hi : i ≠ 0)
    (hnone : s.todos.find?
      (fun td => td.id == i && td.user == some requester.uid) = none) :
    TaskSerializer.processTodoDescriptor requester inst s d = .ok s := by
  simp [TaskSerializer.processTodoDescriptor, hid, hi, hnone]

lemma processTodoDescriptor_found (requester : UserT) (inst : Task) (s : Store)
    (d : TodoDescriptor) (i : Nat) (td : Todo)
    (hid : d.id = some i) (hi : i ≠ 0)
    (hfind : s.todos.find?
      (fun td => td.id == i && td.user == some requester.uid) = some td) :
    TaskSerializer.processTodoDescriptor requester inst s d =
      .ok (s.saveTodo { d.applyTo td with task := some inst.id }) := by
  simp only [TaskSerializer.processTodoDescriptor, hid, hi, hfind,
    ne_eq, ite_not, if_neg, not_false_iff, ite_true]
  by_cases htask : (d.applyTo td).task = some inst.id
  · simp only [htask, ite_true, if_pos trivial]
    rw [← htask]
  · rw [if_neg (by simpa using htask)]
    exact congrArg Except.ok (saveTodo_saveTodo_same_id s (d.applyTo td) _ rfl)

lemma mem_insertionSortTodo (l : List Todo) (td : Todo) :
    td ∈ List.insertionSort Todo.createdDescRel l ↔ td ∈ l :=
  (List.perm_insertionSort _ _).mem_iff

lemma mem_todos_processTodoDescriptor (requester : UserT) (inst : Task)
    (s : Store) (d : TodoDescriptor) (td : Todo)
    (hmem : td ∈ s.todos) (hd : d.id ≠ some td.id) :
    td ∈ (dbState (TaskSerializer.processTodoDescriptor requester inst s d)).todos := by
  unfold TaskSerializer.processTodoDescriptor
  rcases hdi : d.id with _ | i
  · simp [TaskSerializer.objectsCreateTodo, dbState, hmem]
  · by_cases hi : i = 0
    · simp [hi, TaskSerializer.objectsCreateTodo, dbState, hmem]
    · rcases hfind : s.todos.find?
          (fun x => x.id == i && x.user == some requester.uid) with _ | x
      · simp [hi, hfind, dbState, hmem]
      · have hxid : x.id = i := by
          have hp := List.find?_some hfind
          simp only [Bool.and_eq_true, beq_iff_eq] at hp
          exact hp.1
        have htdne : td.id ≠ i := fun h => hd (hdi.trans (by rw [h]))
        have h1 : (d.applyTo x).id = i := hxid
        have h2 : td.id ≠ (d.applyTo x).id := by rw [h1]; exact htdne
        simp only [hi, ite_not, if_neg, ite_false, hfind, ite_true,
          not_false_iff, if_pos]
        split
        · exact mem_saveTodo_of_ne s _ td hmem h2
        · exact mem_saveTodo_of_ne _ _ td
            (mem_saveTodo_of_ne s _ td hmem h2) h2

lemma mem_todos_processTodosData (requester : UserT) (inst : Task)
    (ds : List TodoDescriptor) (td : Todo) :
    ∀ s : Store, td ∈ s.todos → (∀ d ∈ ds, d.id ≠ some td.id) →
      td ∈ (dbState (TaskSerializer.processTodosData requester inst ds s)).todos := by
  induction ds with
  | nil => intro s h _; simpa [TaskSerializer.processTodosData, dbState] using h
  | cons d rest ih =>
    intro s hmem hall
    have hstep := mem_todos_processTodoDescriptor requester inst s d td hmem
      (hall d (by simp))
    rcases hps : TaskSerializer.processTodoDescriptor requester inst s d
      with s1 | s1 <;> rw [hps] at hstep <;>
      simp only [TaskSerializer.processTodosData, hps]
    · exact hstep
    · exact ih s1 hstep (fun d2 hd2 => hall d2 (by simp [hd2]))

lemma mem_perform_destroy_todos (requester : UserT) (inst : Task) (s : Store)
    (x : Todo) (hx : x ∈ (TaskViewSet.perform_destroy requester inst s).todos) :
    x ∈ s.todos ∧ x.task ≠ some inst.id := by
  unfold TaskViewSet.perform_destroy at hx
  by_cases hsup : requester.is_superuser = true <;>
    simp [hsup, List.mem_filter] at hx <;> tauto

/-! ## Claim theorems -/

/-- C5: for every listing of Tasks or Todos, a non-elevated requester
receives exactly the records whose owner equals that requester, an elevated
requester receives all records of that type, and in both cases the results
are ordered by `created_at` descending (newest first). -/
theorem C5_listing_scoped_and_ordered (u : UserT) (s : Store) :
    (∀ t : Task, t ∈ TaskViewSet.get_queryset u s ↔
        t ∈ s.tasks ∧ (u.is_superuser = true ∨ t.user = u.uid)) ∧
    List.Sorted Task.createdDescRel (TaskViewSet.get_queryset u s) ∧
    (∀ td : Todo, td ∈ TodoViewSet.get_queryset u s ↔
        td ∈ s.todos ∧ (u.is_superuser = true ∨ td.user = some u.uid)) ∧
    List.Sorted Todo.createdDescRel (TodoViewSet.get_queryset u s) :=
  ⟨fun t => mem_task_get_queryset u s t, sorted_task_get_queryset u s,
   fun td => mem_todo_get_queryset u s td, sorted_todo_get_queryset u s⟩

/-- C6: a detail fetch of a Task or Todo outside the requester's visible set
fails as not-found (HTTP 404) and never as forbidden (HTTP 403), even when
the record exists and is owned by another user. -/
theorem C6_detail_outside_visible_set_is_not_found (u : UserT) (pk : Nat)
    (s : Store) :
    (u.is_superuser = false →
      (∀ t ∈ s.tasks, t.id = pk → t.user ≠ u.uid) →
      TaskViewSet.retrieve u pk s = FetchResult.notFound) ∧
    (u.is_superuser = false →
      (∀ td ∈ s.todos, td.id = pk → td.user ≠ some u.uid) →
      TodoViewSet.retrieve u pk s = FetchResult.notFound) ∧
    (∀ (w : UserT) (pk2 : Nat) (s2 : Store),
      TaskViewSet.retrieve w pk2 s2 ≠ FetchResult.forbidden ∧
      TodoViewSet.retrieve w pk2 s2 ≠ FetchResult.forbidden) := by
  refine ⟨?_, ?_, ?_⟩
  · intro hsup hout
    have hnone :
        (TaskViewSet.get_queryset u s).find? (fun t => t.id == pk) = none := by
      rw [List.find?_eq_none]
      intro t ht
      rcases (mem_task_get_queryset u s t).1 ht with ⟨hmem, h1 | h2⟩
      · rw [hsup] at h1; cases h1
      · simp only [beq_iff_eq]
        intro hid
        exact hout t hmem hid h2
    unfold TaskViewSet.retrieve
    rw [hnone]
  · intro hsup hout
    have hnone :
        (TodoViewSet.get_queryset u s).find? (fun td => td.id == pk) = none := by
      rw [List.find?_eq_none]
      intro td ht
      rcases (mem_todo_get_queryset u s td).1 ht with ⟨hmem, h1 | h2⟩
      · rw [hsup] at h1; cases h1
      · simp only [beq_iff_eq]
        intro hid
        exact hout td hmem hid h2
    unfold TodoViewSet.retrieve
    rw [hnone]
  · intro w pk2 s2
    constructor
    · rcases h : (TaskViewSet.get_queryset w s2).find? (fun t => t.id == pk2)
        with _ | t <;> simp [TaskViewSet.retrieve, h]
    · rcases h : (TodoViewSet.get_queryset w s2).find? (fun td => td.id == pk2)
        with _ | td <;> simp [TodoViewSet.retrieve, h]

/-- Witness for C6: `sampleUser2` fetching `sampleTask1` (id 1, owned by
user 1) gets a not-found result. -/
theorem C6_witness :
    TaskViewSet.retrieve sampleUser2 1 sampleStore = FetchResult.notFound :=
  (C6_detail_outside_visible_set_is_not_found sampleUser2 1 sampleStore).1
    (by decide) (by decide)

/-- C7 counterexample: the claim says an elevated requester's `todos_count`
counts all Todos under the Task, but `get_todos_count` filters by
`user=request.user` unconditionally — for `sampleAdmin` on `sampleTask1`
(two todos, owned by users 1 and 2) the code yields 0, the claim 2. -/
theorem C7_counterexample :
    TaskSerializer.get_todos_count (some sampleAdmin) sampleTask1 sampleStore
      = 0 ∧
    claimedTodosCount (some sampleAdmin) sampleTask1 sampleStore = 2 ∧
    TaskSerializer.get_todos_count (some sampleAdmin) sampleTask1 sampleStore
      ≠ claimedTodosCount (some sampleAdmin) sampleTask1 sampleStore := by
  decide

/-- C7 (amended): every Task detail response carries a `todos_count` equal to
the number of Todos under that Task owned by the requester — the same owner
filter as the nested `todos` list, applied even to elevated requesters — and
0 when the requester is unauthenticated in context. -/
theorem C7_todos_count_owner_filtered (u : UserT) (obj : Task) (s : Store) :
    TaskSerializer.get_todos_count (some u) obj s =
      (TaskSerializer.get_todos (some u) obj s).length ∧
    TaskSerializer.get_todos_count (some u) obj s =
      s.todos.countP
        (fun td => td.task == some obj.id && td.user == some u.uid) ∧
    TaskSerializer.get_todos_count none obj s = 0 := by
  refine ⟨?_, ?_, rfl⟩
  · simp [TaskSerializer.get_todos_count, TaskSerializer.get_todos,
      (List.perm_insertionSort _ _).length_eq]
  · exact length_filter_filter_countP s.todos _ _

/-- C8: in a Task detail representation the `todos` key is omitted whenever
the `include_todos` query parameter is not `'1'`; with `include_todos=1` the
representation carries exactly the Todos under the Task owned by the
requester (owner-filtered for every requester, elevated ones included), each
rendered through `TaskTodoSerializer`, whose field set is exactly id, title,
description, completed, created_at, updated_at, tags, due_date. -/
theorem C8_todos_key_conditional_and_owner_filtered (u : UserT)
    (qp : Option String) (obj : Task) (s : Store) :
    (qp ≠ some "1" →
      (TaskSerializer.to_representation (some u) qp obj s).todos = none) ∧
    (TaskSerializer.to_representation (some u) (some "1") obj s).todos =
      some (TaskSerializer.get_todos (some u) obj s) ∧
    (∀ r : TaskTodoRepr, r ∈ TaskSerializer.get_todos (some u) obj s ↔
      ∃ td : Todo, td ∈ s.todos ∧ td.task = some obj.id ∧
        td.user = some u.uid ∧ r = TaskTodoSerializer.represent td) := by
  refine ⟨?_, ?_, ?_⟩
  · intro hqp
    simp [TaskSerializer.to_representation, hqp]
  · simp [TaskSerializer.to_representation]
  · intro r
    simp only [TaskSerializer.get_todos, Task.todosOf]
    constructor
    · intro hr
      rcases List.mem_map.1 hr with ⟨td, htd, hrep⟩
      rw [mem_insertionSortTodo] at htd
      rcases List.mem_filter.1 htd with ⟨htd2, huser⟩
      rcases List.mem_filter.1 htd2 with ⟨hmem, htask⟩
      exact ⟨td, hmem, by simpa using htask, by simpa using huser, hrep.symm⟩
    · rintro ⟨td, hmem, htask, huser, rfl⟩
      apply List.mem_map_of_mem
      rw [mem_insertionSortTodo]
      exact List.mem_filter.2
        ⟨List.mem_filter.2 ⟨hmem, by simp [htask]⟩, by simp [huser]⟩

/-- Witness for C8: without the query parameter the representation of
`sampleTask1` has no `todos` entry. -/
theorem C8_witness :
    (TaskSerializer.to_representation (some sampleUser1) none sampleTask1
      sampleStore).todos = none :=
  (C8_todos_key_conditional_and_owner_filtered sampleUser1 none sampleTask1
    sampleStore).1 (by decide)

/-- C3: a reconciliation descriptor whose id matches no Todo owned by the
requester (wrong id, or a Todo owned by someone else) is skipped silently:
the loop step returns normally (no exception) with the store unchanged, and a
whole update carrying only such a descriptor returns normally with every Todo
row exactly as it was. -/
theorem C3_unmatched_descriptor_skipped_silently (requester : UserT)
    (inst : Task) (s : Store) (d : TodoDescriptor) (i : Nat)
    (hid : d.id = some i) (hi : i ≠ 0)
    (hnone : s.todos.find?
      (fun td => td.id == i && td.user == some requester.uid) = none) :
    TaskSerializer.processTodoDescriptor requester inst s d = Except.ok s ∧
    ∀ (title? : Option String) (description? : Option (Option String)),
      ∃ s2 : Store,
        (TaskSerializer.update requester inst title? description? [d] s).2
          = Except.ok s2 ∧ s2.todos = s.todos := by
  refine ⟨processTodoDescriptor_skip requester inst s d i hid hi hnone, ?_⟩
  intro t? d?
  have h := processTodoDescriptor_skip requester
    { inst with title := t?.getD inst.title,
                description := d?.getD inst.description }
    (s.saveTask { inst with title := t?.getD inst.title,
                            description := d?.getD inst.description })
    d i hid hi hnone
  refine ⟨s.saveTask { inst with title := t?.getD inst.title,
                                 description := d?.getD inst.description },
    ?_, rfl⟩
  simp [TaskSerializer.update, TaskSerializer.processTodosData, h]

/-- Witness for C3: a descriptor naming `sampleTodoB` (owned by user 2) in an
update issued by `sampleUser1` leaves the store untouched, no error raised. -/
theorem C3_witness :
    TaskSerializer.processTodoDescriptor sampleUser1 sampleTask1 sampleStore
      { id := some 2, title := some "Attempted Update" }
        = Except.ok sampleStore :=
  (C3_unmatched_descriptor_skipped_silently sampleUser1 sampleTask1 sampleStore
    { id := some 2, title := some "Attempted Update" } 2 rfl (by decide)
    (by decide)).1

/-- A descriptor that smuggles an owner change: it names `sampleTodoA` (owned
by requester `sampleUser1`) and carries a `user` key. -/
def ownerSmugglingDescriptor : TodoDescriptor :=
  { id := some 1, title := some "new", user := some (some 2) }

/-- C2 counterexample: the claim says only the fields other than `id`,
`owner`, and `task` are applied onto the matched Todo, but the `setattr` loop
excludes only `id` — a descriptor carrying a `user` key re-owns the Todo.
At `ownerSmugglingDescriptor` the reconciled row differs from the
claim-prescribed result (`claimedReconcileFound`): the code stores owner 2,
the claim demands owner 1 stay. -/
theorem C2_counterexample :
    sampleStore.todos.find?
      (fun td => td.id == 1 && td.user == some sampleUser1.uid)
        = some sampleTodoA ∧
    ((dbState (TaskSerializer.update sampleUser1 sampleTask1 none none
        [ownerSmugglingDescriptor] sampleStore).2).resolveTodo 1).map Todo.user
      = some (some 2) ∧
    (claimedReconcileFound sampleTask1 ownerSmugglingDescriptor
      sampleTodoA).user = some 1 ∧
    (dbState (TaskSerializer.update sampleUser1 sampleTask1 none none
        [ownerSmugglingDescriptor] sampleStore).2).resolveTodo 1
      ≠ some (claimedReconcileFound sampleTask1 ownerSmugglingDescriptor
          sampleTodoA) := by
  decide

/-- C2 (amended): for a descriptor whose id matches a Todo owned by the
requester, exactly the fields present in the descriptor other than `id` are
applied onto that Todo — `owner` included when the descriptor carries it —
and whatever `task` value the descriptor holds, the persisted row's `task`
reference ends up being the Task under reconciliation (reassigned whenever it
differed); the result is persisted by primary key. -/
theorem C2_found_descriptor_applied (requester : UserT) (inst : Task)
    (s : Store) (d : TodoDescriptor) (i : Nat) (td : Todo)
    (hid : d.id = some i) (hi : i ≠ 0)
    (hfind : s.todos.find?
      (fun x => x.id == i && x.user == some requester.uid) = some td) :
    TaskSerializer.processTodoDescriptor requester inst s d =
      Except.ok (s.saveTodo { d.applyTo td with task := some inst.id }) :=
  processTodoDescriptor_found requester inst s d i td hid hi hfind

/-- Witness for C2 (amended): reconciling a plain title update of
`sampleTodoA`. -/
theorem C2_witness :
    TaskSerializer.processTodoDescriptor sampleUser1 sampleTask1 sampleStore
      { id := some 1, title := some "Existing - Updated" } =
    Except.ok (sampleStore.saveTodo
      { ({ id := some 1, title := some "Existing - Updated" } :
          TodoDescriptor).applyTo sampleTodoA with
            task := some sampleTask1.id }) :=
  C2_found_descriptor_applied sampleUser1 sampleTask1 sampleStore
    { id := some 1, title := some "Existing - Updated" } 1 sampleTodoA rfl
    (by decide) (by decide)

/-- C4: a Task update never deletes a Todo — whether the todo loop completes
or aborts with the create-branch `AttributeError`, every pre-existing Todo
associated with the Task whose id appears in no descriptor of the payload is
still present in the persisted state, as the very same record (all fields
unchanged, still associated); and an update whose payload omits `todos`
entirely returns normally with the whole Todo table unchanged. -/
theorem C4_update_never_deletes_todos (requester : UserT) (inst : Task)
    (title? : Option String) (description? : Option (Option String))
    (todos_data : List TodoDescriptor) (s : Store) (td : Todo)
    (hmem : td ∈ s.todos) (_hassoc : td.task = some inst.id)
    (hunmentioned : ∀ d ∈ todos_data, d.id ≠ some td.id) :
    td ∈ (dbState (TaskSerializer.update requester inst title? description?
        todos_data s).2).todos ∧
    (∃ s2 : Store,
      (TaskSerializer.update requester inst title? description? [] s).2
        = Except.ok s2 ∧ s2.todos = s.todos) := by
  constructor
  · unfold TaskSerializer.update
    exact mem_todos_processTodosData requester _ todos_data td _ hmem
      hunmentioned
  · exact ⟨_, rfl, rfl⟩

/-- Witness for C4: an update touching only `sampleTodoA` (and one whose
id-less descriptor makes the loop raise) keeps `sampleTodoB` — associated
with the Task but owned by another user — intact in the persisted state. -/
theorem C4_witness :
    sampleTodoB ∈ (dbState (TaskSerializer.update sampleUser1 sampleTask1
      (some "Updated Task Title") none
      [{ id := some 1 }, { title := some "New Todo" }] sampleStore).2).todos :=
  (C4_update_never_deletes_todos sampleUser1 sampleTask1
    (some "Updated Task Title") none
    [{ id := some 1 }, { title := some "New Todo" }] sampleStore sampleTodoB
    (by decide) (by decide) (by decide)).1

/-- C1: deleting a Task deletes every Todo whose `task` reference points to
it — whichever user owns each Todo — and the Task itself, whenever the
requester is the Task's owner or elevated; afterwards none of those Todo ids
nor the Task id resolve (assuming primary keys are unique, as the relational
store guarantees). -/
theorem C1_destroy_cascades_to_all_todos (requester : UserT) (inst : Task)
    (s : Store)
    (hperm : requester.uid = inst.user ∨ requester.is_superuser = true)
    (hnodup : (s.todos.map Todo.id).Nodup) :
    (∀ td ∈ s.todos, td.task = some inst.id →
      (TaskViewSet.perform_destroy requester inst s).resolveTodo td.id = none) ∧
    (TaskViewSet.perform_destroy requester inst s).resolveTask inst.id = none := by
  constructor
  · intro td hmem htask
    rw [Store.resolveTodo, List.find?_eq_none]
    intro x hx
    rcases mem_perform_destroy_todos requester inst s x hx with ⟨hxmem, hxtask⟩
    simp only [beq_iff_eq]
    intro hxid
    exact hxtask
      ((List.inj_on_of_nodup_map hnodup hxmem hmem hxid) ▸ htask)
  · rw [Store.resolveTask, List.find?_eq_none]
    intro t ht
    have : t.id ≠ inst.id := by
      unfold TaskViewSet.perform_destroy at ht
      by_cases hsup : requester.is_superuser = true <;>
        simp [hsup, List.mem_filter] at ht <;> tauto
    simpa using this

/-- Witness for C1: `sampleUser1` (the Task's owner, not elevated) destroys
`sampleTask1`; `sampleTodoB` — owned by user 2 — no longer resolves, nor does
the Task. -/
theorem C1_witness :
    (TaskViewSet.perform_destroy sampleUser1 sampleTask1
      sampleStore).resolveTodo sampleTodoB.id = none ∧
    (TaskViewSet.perform_destroy sampleUser1 sampleTask1
      sampleStore).resolveTask sampleTask1.id = none :=
  ⟨(C1_destroy_cascades_to_all_todos sampleUser1 sampleTask1 sampleStore
      (Or.inl rfl) (by decide)).1 sampleTodoB (by decide) (by decide),
   (C1_destroy_cascades_to_all_todos sampleUser1 sampleTask1 sampleStore
      (Or.inl rfl) (by decide)).2⟩

/-- C9: on every creation through the API the persisted owner is the
requesting identity, whatever `user` value the payload carried; and no update
operation through the API changes an owner — the Todo updater leaves `user`
untouched, and a Task update (whose validated data can carry no `todos`,
that field being read-only) changes neither the Task's owner nor any Todo
row at all. -/
theorem C9_owner_server_set_and_immutable (requester : UserT)
    (pt : TodoPayload) (pk : TaskPayload) (fid : Nat) (s : Store) (td : Todo)
    (inst : Task) :
    ((TodoSerializer.create requester pt s).1).user = some requester.uid ∧
    ((TaskSerializer.create requester pk fid s).1).user = requester.uid ∧
    (TodoSerializer.updateInstance pt td).user = td.user ∧
    ((TaskViewSet.updateThroughApi requester inst pk s).1).user = inst.user ∧
    (∃ s2 : Store, (TaskViewSet.updateThroughApi requester inst pk s).2
      = Except.ok s2 ∧ s2.todos = s.todos) :=
  ⟨rfl, rfl, rfl, rfl, _, rfl, rfl⟩

/-- C10: a login whose username or password is present-but-empty is handled
exactly like a missing field — HTTP 400 "Username and password required",
with the credential checker never consulted (the outcome is the same for
every authentication function) — and the 401 "Invalid credentials" answer
can only arise when both fields are non-empty strings. -/
theorem C10_empty_credentials_are_missing_fields
    (authenticate : String → String → Option UserT)
    (username password : Option String) :
    ((username = some "" ∨ username = none ∨
        password = some "" ∨ password = none) →
      LoginView.post authenticate username password =
        LoginResponse.missingFields ∧
      (LoginView.post authenticate username password).status = 400 ∧
      (∀ auth2 : String → String → Option UserT,
        LoginView.post authenticate username password =
          LoginView.post auth2 username password)) ∧
    (LoginView.post authenticate username password =
        LoginResponse.invalidCredentials →
      ∃ nm pw, username = some nm ∧ nm ≠ "" ∧ password = some pw ∧ pw ≠ "") := by
  constructor
  · intro h
    have hfalse : (truthyStr username && truthyStr password) = false := by
      rcases h with h | h | h | h <;> subst h <;>
        simp [truthyStr, Bool.and_comm]
    refine ⟨?_, ?_, ?_⟩
    · simp [LoginView.post, hfalse]
    · simp [LoginView.post, hfalse, LoginResponse.status]
    · intro auth2
      simp [LoginView.post, hfalse]
  · intro hinv
    rcases username with _ | nm
    · simp [LoginView.post, truthyStr] at hinv
    · rcases password with _ | pw
      · simp [LoginView.post, truthyStr] at hinv
      · by_cases hnm : nm = ""
        · simp [LoginView.post, truthyStr, hnm] at hinv
        · by_cases hpw : pw = ""
          · simp [LoginView.post, truthyStr, hpw] at hinv
          · exact ⟨nm, pw, rfl, hnm, rfl, hpw⟩

/-- Witness for C10: an empty username with a non-empty password yields the
400 missing-fields response under an always-failing credential checker. -/
theorem C10_witness :
    LoginView.post (fun _ _ => none) (some "") (some "pw") =
      LoginResponse.missingFields :=
  ((C10_empty_credentials_are_missing_fields (fun _ _ => none) (some "")
    (some "pw")).1 (Or.inl rfl)).1

end App
